import Mathlib

/-!
Shallow embedding of `earthaccess/widgets.py` (class `SearchWidget`).

Coordinates and sizes are modelled as rationals (`ℚ`); shapely geometries are
modelled by their closed exterior coordinate rings (`List (ℚ × ℚ)`), which is
the data `SearchWidget` actually produces and consumes.  Python exceptions are
modelled with `Except String`; `print` logging is modelled by returning the
printed messages.  Interactions with the external `ipyleaflet` map object
(adding/removing layers on screen) are out of scope per the spec and are not
part of the state that the claims talk about.
-/

/-- The character class `[A-Z]` of the regex `([A-Z]+)` used in
`SearchWidget._flattent_column_names`. -/
def isUpAZ (c : Char) : Bool := 'A' ≤ c && c ≤ 'Z'

/-- Python `str.lower()` (on the ASCII letters that can occur here). -/
def pyLower (cs : List Char) : List Char := cs.map Char.toLower

/-- `re.sub('([A-Z]+)', r'_\1', s)`: insert an underscore in front of every
maximal run of uppercase letters.  The boolean argument records whether the
previous character belonged to an uppercase run (so the scan inserts `_` only
at the start of a run). -/
def subUpperAux : Bool → List Char → List Char
  | _, [] => []
  | prevU, c :: rest =>
    if isUpAZ c then
      if prevU then c :: subUpperAux true rest
      else '_' :: c :: subUpperAux true rest
    else c :: subUpperAux false rest

/-- Python `col.split(".")`: split a character list at every `'.'`. -/
def splitDot : List Char → List (List Char)
  | [] => [[]]
  | c :: rest =>
    match splitDot rest with
    | [] => [[]]
    | w :: ws => if c = '.' then [] :: w :: ws else (c :: w) :: ws

/-- Python `col.split(".")[-1]`: the last segment of a dotted key path. -/
def lastSeg (s : String) : String := String.mk ((splitDot s.data).getLastD [])

/-- `re.sub('([A-Z]+)', r'_\1', col.split(".")[-1]).lower()`, the per-column
transformation of `SearchWidget._flattent_column_names` (line 107). -/
def snakeSub (s : String) : String := String.mk (pyLower (subUpperAux false s.data))

/-- `SearchWidget._flattent_column_names` applied to the list of column
names: `[re.sub('([A-Z]+)', r'_\1', col.split(".")[-1]).lower() for col in df.columns]`. -/
def flattentColumnNames (cols : List String) : List String :=
  cols.map (fun col => snakeSub (lastSeg col))

/-- Does a character list start with an `[A-Z]` character? -/
def headIsUp : List Char → Bool
  | [] => false
  | d :: _ => isUpAZ d

/-- Split a character list into words, breaking exactly in front of every
maximal run of uppercase letters.  Returns the first word and the remaining
words.  This is the word decomposition underlying a snake_case conversion. -/
def splitRuns : List Char → List Char × List (List Char)
  | [] => ([], [])
  | c :: rest =>
    let p := splitRuns rest
    if headIsUp p.1 && !(isUpAZ c) then ([c], p.1 :: p.2)
    else (c :: p.1, p.2)

/-- Join words with single underscores. -/
def joinWords (w : List Char) (ws : List (List Char)) : List Char :=
  w ++ (ws.map (fun u => '_' :: u)).flatten

/-- snake_case conversion as the spec words it: break the name into words in
front of each maximal uppercase run, lowercase everything, and join the words
with underscores (no leading underscore). -/
def specSnakeCase (s : String) : String :=
  String.mk (pyLower (joinWords (splitRuns s.data).1 (splitRuns s.data).2))

/-- Twice the cross product `x₁·y₂ − x₂·y₁` of two points, the shoelace
summand. -/
def cross2 (p q : ℚ × ℚ) : ℚ := p.1 * q.2 - q.1 * p.2

/-- Twice the signed (shoelace) area of a coordinate ring, summing over
consecutive vertex pairs.  On a closed ring (first = last) this is twice the
enclosed signed area; it is positive exactly for counter-clockwise winding. -/
def signedArea2 : List (ℚ × ℚ) → ℚ
  | [] => 0
  | [_] => 0
  | p :: q :: rest => cross2 p q + signedArea2 (q :: rest)

/-- Ring closure performed by the shapely `Polygon`/`LinearRing` constructor:
if the first and last coordinates differ, the first coordinate is appended. -/
def closeRing : List (ℚ × ℚ) → List (ℚ × ℚ)
  | [] => []
  | a :: t => if (a :: t).getLast? = some a then a :: t else (a :: t) ++ [a]

/-- `SearchWidget._orient_polygon` (lines 132-134):
`orient(Polygon(coords))` followed by `list(polygon.exterior.coords)`.
The `Polygon` constructor closes the ring; `shapely.geometry.polygon.orient`
(with its default `sign=1.0`) keeps the exterior ring when its signed area is
nonnegative and reverses it otherwise, so the result is the closed ring in
counter-clockwise winding. -/
def orientPolygon (coords : List (ℚ × ℚ)) : List (ℚ × ℚ) :=
  if 0 ≤ signedArea2 (closeRing coords) then closeRing coords
  else (closeRing coords).reverse

/-- `shapely.geometry.box(w, s, e, n, ccw=True)` as called on line 190:
coordinate sequence `[(e, s), (e, n), (w, n), (w, s)]`, closed into a ring by
the `Polygon` constructor. -/
def shapelyBox (w s e n : ℚ) : List (ℚ × ℚ) :=
  closeRing [(e, s), (e, n), (w, n), (w, s)]

/-- shapely `.bounds` of a coordinate ring: `(minx, miny, maxx, maxy)`. -/
def shapeBounds : List (ℚ × ℚ) → ℚ × ℚ × ℚ × ℚ
  | [] => (0, 0, 0, 0)
  | p :: rest =>
    (rest.foldl (fun m q => min m q.1) p.1,
     rest.foldl (fun m q => min m q.2) p.2,
     rest.foldl (fun m q => max m q.1) p.1,
     rest.foldl (fun m q => max m q.2) p.2)

/-- One entry of a granule's `RelatedUrls` list: a `{URL, Type}` pair. -/
structure RelatedUrl where
  url : String
  linkType : String
deriving DecidableEq

/-- One entry of `geo['BoundingRectangles']`: west/south/east/north bounds. -/
structure BoundingRect where
  west : ℚ
  south : ℚ
  east : ℚ
  north : ℚ
deriving DecidableEq

/-- One `{Longitude, Latitude}` point of a `GPolygons` boundary. -/
structure GeoPoint where
  lon : ℚ
  lat : ℚ
deriving DecidableEq

/-- One entry of `geo['GPolygons']`, holding `['Boundary']['Points']`. -/
structure GPolygonB where
  boundaryPoints : List GeoPoint
deriving DecidableEq

/-- `result['umm']['SpatialExtent']['HorizontalSpatialDomain']['Geometry']`:
a mapping that may carry a `BoundingRectangles` key, a `GPolygons` key, both,
or neither (`none` models an absent key). -/
structure GeoMeta where
  boundingRectangles : Option (List BoundingRect)
  gpolygons : Option (List GPolygonB)
deriving DecidableEq

/-- Modelled from the spec: the granule record shape.  `DataGranule` is
defined in `results.py`, which is not under `src/`; per spec §6 a record is a
nested mapping with top-level scalar fields (size, identifiers, timestamps),
a related-urls list of `{URL, Type}` pairs, and a spatial-metadata path.
`spatialGeometry = none` models a record on which any level of the path
`['umm']['SpatialExtent']['HorizontalSpatialDomain']['Geometry']` is missing
(a `KeyError` on access). -/
structure Granule where
  size : ℚ
  conceptId : String
  datasetId : String
  nativeId : String
  providerId : String
  beginningDateTime : String
  endingDateTime : String
  relatedUrls : List RelatedUrl
  spatialGeometry : Option GeoMeta
deriving DecidableEq

/-- The body of the `try` block of `SearchWidget._get_shapely_object`
(lines 181-196): look up the spatial-metadata mapping (a missing path raises
`KeyError`), prefer `BoundingRectangles` over `GPolygons` (the `if`/`elif`
order of lines 184 and 191), index `[0]` into the respective list (an empty
list raises `IndexError`), and raise `ValueError` when neither key is
present. -/
def getShapelyExc (g : Granule) : Except String (List (ℚ × ℚ)) :=
  match g.spatialGeometry with
  | none => Except.error "KeyError"
  | some geo =>
    match geo.boundingRectangles with
    | some rects =>
      match rects with
      | [] => Except.error "IndexError: list index out of range"
      | r :: _ => Except.ok (shapelyBox r.west r.south r.east r.north)
    | none =>
      match geo.gpolygons with
      | some polys =>
        match polys with
        | [] => Except.error "IndexError: list index out of range"
        | p :: _ =>
          Except.ok (closeRing (p.boundaryPoints.map (fun pt => (pt.lon, pt.lat))))
      | none =>
        Except.error
          "Provided result does not contain bounding boxes/polygons or is incompatible."

/-- `SearchWidget._get_shapely_object` (lines 179-202): run the `try` body;
any exception is caught, printed (the second component collects the printed
messages) and the initial `shape = None` is returned. -/
def getShapelyObject (g : Granule) : Option (List (ℚ × ℚ)) × List String :=
  match getShapelyExc g with
  | Except.ok s => (some s, [])
  | Except.error e => (none, [e])

/-- `self.default_fields` (lines 29-37). -/
def defaultFields : List String :=
  ["size", "concept_id", "dataset-id", "native-id", "provider-id",
   "_related_urls", "_beginning_date_time", "_ending_date_time", "geometry"]

/-- Modelled from the spec: the nested key paths that
`pandas.json_normalize` produces for a granule record (the record shape lives
in `results.py`, not under `src/`); spec §6 lists top-level scalars (size,
identifiers, timestamps) and the related-urls list, and `widgets.py` reads
the flattened columns `size`, `dataset-id`, `native-id`, `provider-id`,
`_related_urls`, `_beginning_date_time`, `_ending_date_time` from them. -/
def granulePaths : List String :=
  ["size", "meta.concept-id", "meta.dataset-id", "meta.native-id",
   "meta.provider-id", "umm.TemporalExtent.RangeDateTime.BeginningDateTime",
   "umm.TemporalExtent.RangeDateTime.EndingDateTime", "umm.RelatedUrls"]

/-- The link types kept by the `_related_urls` filter on line 122. -/
def allowedLinkTypes : List String :=
  ["GET DATA", "GET DATA VIA DIRECT ACCESS", "GET RELATED VISUALIZATION"]

/-- `lambda r: [l for l in r if l["Type"] in [...]]` (line 122). -/
def filterRelatedUrls (urls : List RelatedUrl) : List RelatedUrl :=
  urls.filter (fun l => l.linkType ∈ allowedLinkTypes)

/-- The `geopandas.GeoDataFrame` produced by `to_geopandas`: its column
names (in order, with the attached `geometry` column last), the underlying
row records in order, the filtered `_related_urls` column and the `geometry`
column. -/
structure GeoDataFrame where
  columns : List String
  records : List Granule
  relatedUrls : List (List RelatedUrl)
  geometry : List (Option (List (ℚ × ℚ)))
deriving DecidableEq

/-- `SearchWidget.to_geopandas` (lines 111-128): `json_normalize` the record
list (an empty list yields a frame with no columns), flatten the column
names, default the `fields` allow-list, drop the columns outside the
allow-list, filter the `_related_urls` column — accessing that column raises
`KeyError` when it is not among the remaining columns — and attach one
geometry per row computed by `_get_shapely_object` (the frame's row index is
`0..len(results)-1`). -/
def toGeopandas (results : List Granule) (fields : List String) :
    Except String GeoDataFrame :=
  let cols0 := if results.isEmpty then [] else granulePaths
  let cols1 := flattentColumnNames cols0
  let fields' := if fields.isEmpty then defaultFields else fields
  let cols2 := cols1.filter (fun c => c ∈ fields')
  if "_related_urls" ∈ cols2 then
    Except.ok
      { columns := cols2 ++ ["geometry"],
        records := results,
        relatedUrls := results.map (fun g => filterRelatedUrls g.relatedUrls),
        geometry := results.map (fun g => (getShapelyObject g).1) }
  else Except.error "KeyError: _related_urls"

/-- `[matplotlib.colors.to_hex(c) for c in plt.cm.tab10.colors]` (line 248):
the ten tab10 palette colors. -/
def tab10Colors : List String :=
  ["#1f77b4", "#ff7f0e", "#2ca02c", "#d62728", "#9467bd",
   "#8c564b", "#e377c2", "#7f7f7f", "#bcbd22", "#17becf"]

/-- `pandas.Series.unique`: distinct values in order of first appearance. -/
def uniqueFirstSeen (l : List String) : List String :=
  l.foldl (fun acc x => if x ∈ acc then acc else acc ++ [x]) []

/-- Floor of a rational, computed by floor division of numerator by
denominator. -/
def floorQ (q : ℚ) : ℤ := Int.fdiv q.num (q.den : ℤ)

/-- Round to the nearest integer, ties to even (Python's `round`). -/
def roundHalfEven (q : ℚ) : ℤ :=
  let f := floorQ q
  let frac := q - (f : ℚ)
  if frac < 1 / 2 then f
  else if 1 / 2 < frac then f + 1
  else if f % 2 = 0 then f else f + 1

/-- Python `round(x, 2)` on the exact rational value. -/
def pyRound2 (q : ℚ) : ℚ := (roundHalfEven (q * 100) : ℚ) / 100

/-- The successful value of an `Except String` computation, if any (used to
state closed facts about fallible operations). -/
def okOf {α : Type} : Except String α → Option α
  | Except.ok a => some a
  | Except.error _ => none

/-- One `ipyleaflet.GeoData` layer built by `SearchWidget.explore`
(lines 251-270): its dataset id, its `color`/`fillColor` style entry, and the
group statistics interpolated into its `name` label
(`f"{p} [Count: {total_granules:,} | Size: {total_size} GB]"`). -/
structure MapLayer where
  datasetId : String
  color : String
  count : Nat
  totalSize : ℚ
deriving DecidableEq

/-- `SearchWidget.explore` (lines 245-272): build the default table, read the
distinct `dataset-id` values (accessing a missing column raises `KeyError`),
and `zip` them with the ten palette colors — `zip` stops at the shorter
operand — producing one layer per paired group with its row count and
`round(df["size"].sum() / 1024, 2)` total size. -/
def explore (results : List Granule) : Except String (List MapLayer) :=
  match toGeopandas results [] with
  | Except.error e => Except.error e
  | Except.ok gdf =>
    if "dataset-id" ∈ gdf.columns then
      let datasetIds := uniqueFirstSeen (gdf.records.map (fun g => g.datasetId))
      Except.ok
        ((datasetIds.zip tab10Colors).map (fun pc =>
          let df := gdf.records.filter (fun g => g.datasetId == pc.1)
          { datasetId := pc.1,
            color := pc.2,
            count := df.length,
            totalSize := pyRound2 ((df.map (fun g => g.size)).sum / 1024) }))
    else Except.error "KeyError: dataset-id"

/-- Value stored under the `"polygon"` search-parameter key: the empty string
written by `_build_widget` (line 53) or a coordinate ring written by
`_extract_geometry_info` (line 142). -/
inductive PolyVal where
  | emptyStr : PolyVal
  | ring (cs : List (ℚ × ℚ)) : PolyVal
deriving DecidableEq

/-- `self.search_params`: the `"polygon"`, `"point"` and `"line"` keys that
`SearchWidget` writes (`none` = key absent). -/
structure SearchParams where
  polygon : Option PolyVal
  point : Option (ℚ × ℚ)
  line : Option (List (ℚ × ℚ))
deriving DecidableEq

/-- The `"polygon" not in self.search_params` initialisation of
`_build_widget` (lines 52-53). -/
def buildWidgetParams (p : SearchParams) : SearchParams :=
  match p.polygon with
  | none => { p with polygon := some PolyVal.emptyStr }
  | some _ => p

/-- The value of `self.roi` returned by `_extract_geometry_info`. -/
inductive Roi where
  | ring (cs : List (ℚ × ℚ)) : Roi
  | pt (c : ℚ × ℚ) : Roi
  | path (cs : List (ℚ × ℚ)) : Roi
deriving DecidableEq

/-- A well-formed GeoJSON geometry as delivered by the draw control: the
`type` tag paired with the coordinate payload of that kind (`other` carries
the tag of any unsupported kind, e.g. `"MultiPolygon"`). -/
inductive GeomData where
  | polygon (rings : List (List (ℚ × ℚ))) : GeomData
  | point (c : ℚ × ℚ) : GeomData
  | lineString (cs : List (ℚ × ℚ)) : GeomData
  | other (typeName : String) : GeomData
deriving DecidableEq

/-- Result of `_extract_geometry_info`: the updated `self.search_params`, the
returned value (assigned to `self.roi`), and the printed messages. -/
structure ExtractOut where
  params : SearchParams
  roi : Option Roi
  log : List String
deriving DecidableEq

/-- `SearchWidget._extract_geometry_info` (lines 136-152): dispatch on the
geometry `type`; a polygon orients `coordinates[0]` (indexing an empty rings
list raises `IndexError`) and stores it under `"polygon"`, a point/line
stores its coordinates under `"point"`/`"line"`, and any other kind prints
`"Unsupported geometry type:"` and returns `None` without touching
`search_params`. -/
def extractGeometryInfo (p : SearchParams) : GeomData → Except String ExtractOut
  | GeomData.polygon rings =>
    match rings with
    | [] => Except.error "IndexError: list index out of range"
    | outer :: _ =>
      let coords := orientPolygon outer
      Except.ok
        { params := { p with polygon := some (PolyVal.ring coords) },
          roi := some (Roi.ring coords),
          log := [] }
  | GeomData.point c =>
    Except.ok
      { params := { p with point := some c }, roi := some (Roi.pt c), log := [] }
  | GeomData.lineString cs =>
    Except.ok
      { params := { p with line := some cs }, roi := some (Roi.path cs), log := [] }
  | GeomData.other typeName =>
    Except.ok
      { params := p, roi := none,
        log := ["Unsupported geometry type: " ++ typeName] }

/-- The widget state mutated by `_handle_draw`: the search parameters, the
`active_layers` list, the current ROI overlay (the drawn GeoJSON) and
`self.roi`, plus the accumulated printed messages. -/
structure WidgetState where
  searchParams : SearchParams
  activeLayers : List MapLayer
  currentGeometry : Option GeomData
  roi : Option Roi
  log : List String
deriving DecidableEq

/-- `SearchWidget._handle_draw` (lines 155-176): remove and clear the active
layers, clear the draw control, replace the current ROI overlay with the
newly drawn GeoJSON, and set `self.roi` from `_extract_geometry_info` on the
event's geometry (an exception there propagates). -/
def handleDraw (s : WidgetState) (drawnGeometry : GeomData) :
    Except String WidgetState :=
  match extractGeometryInfo s.searchParams drawnGeometry with
  | Except.error e => Except.error e
  | Except.ok out =>
    Except.ok
      { searchParams := out.params,
        activeLayers := [],
        currentGeometry := some drawnGeometry,
        roi := out.roi,
        log := s.log ++ out.log }

/-- Record builder used by the concrete test inputs below: a granule with
the given dataset id and size, no related urls and no spatial metadata. -/
def gran (d : String) (sz : ℚ) : Granule :=
  { size := sz, conceptId := "c", datasetId := d, nativeId := "n",
    providerId := "p", beginningDateTime := "b", endingDateTime := "e",
    relatedUrls := [], spatialGeometry := none }

/-- A granule whose spatial metadata is one bounding rectangle
`(west, south, east, north) = (0, 0, 10, 20)`. -/
def granWithBox : Granule :=
  { gran "GOOD" 2 with
    spatialGeometry :=
      some { boundingRectangles := some [{ west := 0, south := 0, east := 10, north := 20 }],
             gpolygons := none } }

/-- Eleven granules with eleven distinct dataset ids. -/
def elevenGranules : List Granule :=
  [gran "d0" 1, gran "d1" 1, gran "d2" 1, gran "d3" 1, gran "d4" 1,
   gran "d5" 1, gran "d6" 1, gran "d7" 1, gran "d8" 1, gran "d9" 1,
   gran "d10" 1]

/-- Three granules of 10 MB in dataset `"A"` and two granules of 5 MB in
dataset `"B"`. -/
def fiveGranules : List Granule :=
  [gran "A" 10, gran "A" 10, gran "A" 10, gran "B" 5, gran "B" 5]

/-! ## Helper lemmas -/

theorem signedArea2_append (l : List (ℚ × ℚ)) (a : ℚ × ℚ) :
    signedArea2 (l ++ [a]) =
      signedArea2 l + (l.getLast?).elim 0 (fun b => cross2 b a) := by
  induction l with
  | nil => simp [signedArea2]
  | cons p tl ih =>
    cases tl with
    | nil => simp [signedArea2]
    | cons q rest =>
      show cross2 p q + signedArea2 ((q :: rest) ++ [a]) =
        signedArea2 (p :: q :: rest) + _
      rw [ih, List.getLast?_cons_cons]
      show cross2 p q + (signedArea2 (q :: rest) + _) =
        (cross2 p q + signedArea2 (q :: rest)) + _
      rw [add_assoc]

theorem signedArea2_reverse (l : List (ℚ × ℚ)) :
    signedArea2 l.reverse = -signedArea2 l := by
  induction l with
  | nil => simp [signedArea2]
  | cons p tl ih =>
    rw [List.reverse_cons, signedArea2_append, ih, List.getLast?_reverse]
    cases tl with
    | nil => simp [signedArea2]
    | cons q rest =>
      simp only [List.head?_cons, Option.elim, signedArea2]
      simp [cross2]

theorem closeRing_head (a : ℚ × ℚ) (t : List (ℚ × ℚ)) :
    (closeRing (a :: t)).head? = some a := by
  simp only [closeRing]
  split
  · rfl
  · rfl

theorem closeRing_getLast (a : ℚ × ℚ) (t : List (ℚ × ℚ)) :
    (closeRing (a :: t)).getLast? = some a := by
  simp only [closeRing]
  split
  · assumption
  · exact List.getLast?_concat _

theorem closeRing_closed_self (l : List (ℚ × ℚ)) (a : ℚ × ℚ)
    (h1 : l.head? = some a) (h2 : l.getLast? = some a) : closeRing l = l := by
  cases l with
  | nil => rfl
  | cons b t =>
    have hb : b = a := by simpa using h1
    subst hb
    simp only [closeRing]
    rw [if_pos h2]

theorem orientPolygon_area_nonneg (coords : List (ℚ × ℚ)) :
    0 ≤ signedArea2 (orientPolygon coords) := by
  unfold orientPolygon
  by_cases h : 0 ≤ signedArea2 (closeRing coords)
  · rw [if_pos h]; exact h
  · rw [if_neg h, signedArea2_reverse]
    linarith [lt_of_not_le h]

theorem orientPolygon_closed (a : ℚ × ℚ) (t : List (ℚ × ℚ)) :
    ∃ b, (orientPolygon (a :: t)).head? = some b ∧
      (orientPolygon (a :: t)).getLast? = some b := by
  unfold orientPolygon
  by_cases h : 0 ≤ signedArea2 (closeRing (a :: t))
  · rw [if_pos h]
    exact ⟨a, closeRing_head a t, closeRing_getLast a t⟩
  · rw [if_neg h]
    refine ⟨a, ?_, ?_⟩
    · rw [List.head?_reverse, closeRing_getLast]
    · rw [List.getLast?_reverse, closeRing_head]

theorem orientPolygon_idem (coords : List (ℚ × ℚ)) (h : coords ≠ []) :
    orientPolygon (orientPolygon coords) = orientPolygon coords := by
  obtain ⟨a, t, rfl⟩ : ∃ a t, coords = a :: t := by
    cases coords with
    | nil => exact absurd rfl h
    | cons a t => exact ⟨a, t, rfl⟩
  obtain ⟨b, hh, hl⟩ := orientPolygon_closed a t
  have hc : closeRing (orientPolygon (a :: t)) = orientPolygon (a :: t) :=
    closeRing_closed_self _ b hh hl
  have hstep : orientPolygon (orientPolygon (a :: t)) =
      if 0 ≤ signedArea2 (closeRing (orientPolygon (a :: t))) then
        closeRing (orientPolygon (a :: t))
      else (closeRing (orientPolygon (a :: t))).reverse := rfl
  rw [hstep, hc, if_pos (orientPolygon_area_nonneg _)]

theorem shapelyBox_eq (w s e n : ℚ) (hw : w ≠ e) :
    shapelyBox w s e n = [(e, s), (e, n), (w, n), (w, s), (e, s)] := by
  unfold shapelyBox
  simp only [closeRing]
  rw [if_neg]
  · rfl
  · have hgl : ([((e : ℚ), s), (e, n), (w, n), (w, s)]).getLast? = some (w, s) := rfl
    rw [hgl]
    intro hEq
    have hfst : w = e := congrArg Prod.fst (Option.some.inj hEq)
    exact hw hfst

theorem shapeBounds_box (w s e n : ℚ) (hw : w < e) (hs : s < n) :
    shapeBounds (shapelyBox w s e n) = (w, s, e, n) := by
  rw [shapelyBox_eq w s e n (ne_of_lt hw)]
  have hwe := le_of_lt hw
  have hsn := le_of_lt hs
  simp only [shapeBounds, List.foldl_cons, List.foldl_nil]
  simp [min_self, max_self, min_eq_right hwe, min_eq_left hwe,
    max_eq_left hwe, max_eq_right hwe, min_eq_right hsn, min_eq_left hsn,
    max_eq_left hsn, max_eq_right hsn]

theorem signedArea2_box (w s e n : ℚ) (hw : w ≠ e) :
    signedArea2 (shapelyBox w s e n) = 2 * ((e - w) * (n - s)) := by
  rw [shapelyBox_eq w s e n hw]
  simp [signedArea2, cross2]
  ring

theorem zip_map_fst {α β : Type} (l1 : List α) (l2 : List β) :
    (l1.zip l2).map Prod.fst = l1.take l2.length := by
  induction l1 generalizing l2 with
  | nil => simp
  | cons a t ih =>
    cases l2 with
    | nil => simp
    | cons b u => simp [ih]

theorem zip_map_snd {α β : Type} (l1 : List α) (l2 : List β) :
    (l1.zip l2).map Prod.snd = l2.take l1.length := by
  induction l1 generalizing l2 with
  | nil => simp
  | cons a t ih =>
    cases l2 with
    | nil => simp
    | cons b u => simp [ih]

theorem tab10_pairwise_ne : tab10Colors.Pairwise (fun a b => a ≠ b) := by
  decide

theorem toGeopandas_cons (a : Granule) (t : List Granule) :
    toGeopandas (a :: t) [] =
      Except.ok
        { columns := ["size", "dataset-id", "native-id", "provider-id",
            "_beginning_date_time", "_ending_date_time", "_related_urls",
            "geometry"],
          records := a :: t,
          relatedUrls := (a :: t).map (fun g => filterRelatedUrls g.relatedUrls),
          geometry := (a :: t).map (fun g => (getShapelyObject g).1) } := rfl

theorem explore_cons (a : Granule) (t : List Granule) :
    explore (a :: t) =
      Except.ok
        (((uniqueFirstSeen ((a :: t).map (fun g => g.datasetId))).zip
            tab10Colors).map (fun pc =>
          { datasetId := pc.1,
            color := pc.2,
            count := ((a :: t).filter (fun g => g.datasetId == pc.1)).length,
            totalSize := pyRound2
              ((((a :: t).filter (fun g => g.datasetId == pc.1)).map
                  (fun g => g.size)).sum / 1024) })) := rfl

theorem headIsUp_splitRuns (cs : List Char) :
    headIsUp (splitRuns cs).1 = headIsUp cs := by
  cases cs with
  | nil => rfl
  | cons c rest =>
    simp only [splitRuns]
    split
    · rfl
    · rfl

theorem subUpperAux_join (cs : List Char) :
    ∀ prevU, subUpperAux prevU cs =
      (if headIsUp cs && !prevU then ['_'] else []) ++
        joinWords (splitRuns cs).1 (splitRuns cs).2 := by
  induction cs with
  | nil => intro prevU; simp [subUpperAux, splitRuns, joinWords, headIsUp]
  | cons c rest ih =>
    intro prevU
    by_cases hc : isUpAZ c = true
    · have hsp : splitRuns (c :: rest) =
          (c :: (splitRuns rest).1, (splitRuns rest).2) := by
        simp [splitRuns, hc]
      have hjw : joinWords (c :: (splitRuns rest).1) (splitRuns rest).2 =
          c :: joinWords (splitRuns rest).1 (splitRuns rest).2 := rfl
      have hrest : subUpperAux true rest =
          joinWords (splitRuns rest).1 (splitRuns rest).2 := by
        rw [ih true]
        simp
      cases prevU with
      | true =>
        simp only [subUpperAux, hc, if_true, hsp, hjw, hrest]
        simp [headIsUp, hc]
      | false =>
        simp only [subUpperAux, hc, if_true, if_false, hsp, hjw, hrest]
        simp [headIsUp, hc]
    · have hcf : isUpAZ c = false := by
        cases hb : isUpAZ c
        · rfl
        · exact absurd hb hc
      have hhead : headIsUp (c :: rest) = false := hcf
      cases hr : headIsUp rest with
      | true =>
        have hsp : splitRuns (c :: rest) =
            ([c], (splitRuns rest).1 :: (splitRuns rest).2) := by
          simp [splitRuns, hcf, headIsUp_splitRuns, hr]
        have hjw : joinWords [c] ((splitRuns rest).1 :: (splitRuns rest).2) =
            c :: '_' :: joinWords (splitRuns rest).1 (splitRuns rest).2 := rfl
        simp only [subUpperAux, hcf, Bool.false_eq_true, if_false, hsp, hjw,
          hhead, Bool.false_and]
        rw [ih false]
        simp [hr]
      | false =>
        have hsp : splitRuns (c :: rest) =
            (c :: (splitRuns rest).1, (splitRuns rest).2) := by
          simp [splitRuns, hcf, headIsUp_splitRuns, hr]
        have hjw : joinWords (c :: (splitRuns rest).1) (splitRuns rest).2 =
            c :: joinWords (splitRuns rest).1 (splitRuns rest).2 := rfl
        simp only [subUpperAux, hcf, Bool.false_eq_true, if_false, hsp, hjw,
          hhead, Bool.false_and]
        rw [ih false]
        simp [hr]

/-! ## Claim theorems -/

/-- C3: for every bounding-rectangle spatial metadata with `west < east` and
`south < north`, `_get_shapely_object` returns the axis-aligned box built by
`geometry.box(..., ccw=True)`, whose bounds equal `(west, south, east,
north)` exactly and whose ring is wound counter-clockwise (positive signed
area). -/
theorem bounding_rectangle_box_extraction (g : Granule) (geo : GeoMeta)
    (r : BoundingRect) (tl : List BoundingRect)
    (hg : g.spatialGeometry = some geo)
    (hb : geo.boundingRectangles = some (r :: tl))
    (hw : r.west < r.east) (hs : r.south < r.north) :
    getShapelyExc g = Except.ok (shapelyBox r.west r.south r.east r.north) ∧
    shapeBounds (shapelyBox r.west r.south r.east r.north) =
      (r.west, r.south, r.east, r.north) ∧
    0 < signedArea2 (shapelyBox r.west r.south r.east r.north) := by
  refine ⟨?_, shapeBounds_box _ _ _ _ hw hs, ?_⟩
  · simp [getShapelyExc, hg, hb]
  · rw [signedArea2_box _ _ _ _ (ne_of_lt hw)]
    have h1 : 0 < (r.east - r.west) * (r.north - r.south) :=
      mul_pos (by linarith) (by linarith)
    linarith

/-- Witness for C3 at the concrete rectangle `(0, 0, 10, 20)`. -/
theorem bounding_rectangle_box_extraction_witness :
    granWithBox.spatialGeometry =
      some { boundingRectangles :=
               some [{ west := 0, south := 0, east := 10, north := 20 }],
             gpolygons := none } ∧
    (getShapelyExc granWithBox = Except.ok (shapelyBox 0 0 10 20) ∧
     shapeBounds (shapelyBox 0 0 10 20) = (0, 0, 10, 20) ∧
     0 < signedArea2 (shapelyBox 0 0 10 20)) :=
  ⟨rfl,
   bounding_rectangle_box_extraction granWithBox _ _ [] rfl rfl
     (by norm_num) (by norm_num)⟩

/-- C5: for every polygon boundary with at least 3 points,
`_orient_polygon` returns a ring with the canonical (counter-clockwise,
nonnegative signed area) winding regardless of the input ring's winding, and
it is idempotent. -/
theorem orient_polygon_canonical_winding_idempotent (coords : List (ℚ × ℚ))
    (h : 3 ≤ coords.length) :
    0 ≤ signedArea2 (orientPolygon coords) ∧
    0 ≤ signedArea2 (orientPolygon coords.reverse) ∧
    orientPolygon (orientPolygon coords) = orientPolygon coords := by
  refine ⟨orientPolygon_area_nonneg _, orientPolygon_area_nonneg _,
    orientPolygon_idem _ ?_⟩
  intro hnil
  rw [hnil] at h
  exact absurd h (by decide)

/-- Witness for C5 at the concrete triangle `[(0,0), (1,0), (0,1)]`. -/
theorem orient_polygon_canonical_winding_idempotent_witness :
    3 ≤ ([((0 : ℚ), (0 : ℚ)), (1, 0), (0, 1)]).length ∧
    (0 ≤ signedArea2 (orientPolygon [((0 : ℚ), (0 : ℚ)), (1, 0), (0, 1)]) ∧
     0 ≤ signedArea2
        (orientPolygon ([((0 : ℚ), (0 : ℚ)), (1, 0), (0, 1)]).reverse) ∧
     orientPolygon (orientPolygon [((0 : ℚ), (0 : ℚ)), (1, 0), (0, 1)]) =
       orientPolygon [((0 : ℚ), (0 : ℚ)), (1, 0), (0, 1)]) :=
  ⟨by decide, orient_polygon_canonical_winding_idempotent _ (by decide)⟩

/-- C6: handling a draw event whose geometry kind is not polygon, point or
line returns normally (no exception), logs the unsupported kind, leaves the
search parameters exactly as they were (no polygon/point/line key written)
and sets the ROI to `None`. -/
theorem handle_draw_unsupported_kind_no_write (s : WidgetState) (ty : String) :
    handleDraw s (GeomData.other ty) =
      Except.ok
        { searchParams := s.searchParams,
          activeLayers := [],
          currentGeometry := some (GeomData.other ty),
          roi := none,
          log := s.log ++ ["Unsupported geometry type: " ++ ty] } := rfl

/-- C9: drawing a polygon and then a point updates only the key of the newly
drawn kind: after the two draws the search parameters still hold the old
polygon ring alongside the new point, and the line key is untouched. -/
theorem draw_polygon_then_point_keeps_polygon_key (s : WidgetState)
    (outer : List (ℚ × ℚ)) (holes : List (List (ℚ × ℚ))) (c : ℚ × ℚ) :
    ∃ s1 s2,
      handleDraw s (GeomData.polygon (outer :: holes)) = Except.ok s1 ∧
      handleDraw s1 (GeomData.point c) = Except.ok s2 ∧
      s1.searchParams.polygon = some (PolyVal.ring (orientPolygon outer)) ∧
      s2.searchParams.polygon = some (PolyVal.ring (orientPolygon outer)) ∧
      s2.searchParams.point = some c ∧
      s2.searchParams.line = s.searchParams.line :=
  ⟨_, _, rfl, rfl, rfl, rfl, rfl, rfl⟩

/-- C1: for every non-empty record list, `to_geopandas` succeeds; every row
is retained in input order, the geometry column is the per-row result of
`_get_shapely_object`, and any row whose spatial extraction raises (its
`try` body returns an error) gets an absent (`none`) geometry with the
exception logged — one malformed record never aborts the table. -/
theorem to_geopandas_isolates_geometry_failures (results : List Granule)
    (h : results ≠ []) :
    ∃ gdf, toGeopandas results [] = Except.ok gdf ∧
      gdf.records = results ∧
      gdf.geometry = results.map (fun g => (getShapelyObject g).1) ∧
      ∀ g ∈ results, okOf (getShapelyExc g) = none →
        (getShapelyObject g).1 = none ∧ (getShapelyObject g).2.length = 1 := by
  obtain ⟨a, t, rfl⟩ : ∃ a t, results = a :: t := by
    cases results with
    | nil => exact absurd rfl h
    | cons a t => exact ⟨a, t, rfl⟩
  refine ⟨_, toGeopandas_cons a t, rfl, rfl, ?_⟩
  intro g hg hfail
  cases hexc : getShapelyExc g with
  | ok v =>
    rw [hexc] at hfail
    exact absurd hfail (by simp [okOf])
  | error e =>
    exact ⟨by simp [getShapelyObject, hexc], by simp [getShapelyObject, hexc]⟩

/-- Witness for C1: a record with no spatial metadata next to a good one;
the bad row keeps a `none` geometry and both rows are retained. -/
theorem to_geopandas_isolates_geometry_failures_witness :
    ([gran "BAD" 1, granWithBox] : List Granule) ≠ [] ∧
    (∃ gdf, toGeopandas [gran "BAD" 1, granWithBox] [] = Except.ok gdf ∧
      gdf.records = [gran "BAD" 1, granWithBox] ∧
      gdf.geometry =
        [gran "BAD" 1, granWithBox].map (fun g => (getShapelyObject g).1) ∧
      ∀ g ∈ ([gran "BAD" 1, granWithBox] : List Granule),
        okOf (getShapelyExc g) = none →
          (getShapelyObject g).1 = none ∧ (getShapelyObject g).2.length = 1) ∧
    okOf (getShapelyExc (gran "BAD" 1)) = none ∧
    (getShapelyObject (gran "BAD" 1)).1 = none :=
  ⟨List.cons_ne_nil _ _,
   to_geopandas_isolates_geometry_failures _ (List.cons_ne_nil _ _),
   rfl, rfl⟩

/-- C4 counterexample: on the empty result list (with the default fields)
`to_geopandas` does not return a zero-row table — it raises `KeyError`,
because `json_normalize([])` yields a frame with no columns and
`results_df["_related_urls"]` is then accessed unconditionally. -/
theorem to_geopandas_empty_list_counterexample :
    toGeopandas ([] : List Granule) [] =
      Except.error "KeyError: _related_urls" := rfl

/-- C4 amended: `to_geopandas` on the empty result list raises `KeyError`
on the `_related_urls` column (for every fields argument), instead of
returning a zero-row table with the default columns. -/
theorem to_geopandas_empty_list_raises (fields : List String) :
    toGeopandas ([] : List Granule) fields =
      Except.error "KeyError: _related_urls" := rfl

/-- C10: a non-empty explicit fields list that omits `_related_urls` makes
`to_geopandas` raise `KeyError` — the column is dropped by the allow-list
filter and then accessed unconditionally — instead of returning a table
restricted to the requested fields. -/
theorem to_geopandas_missing_related_urls_field_raises (results : List Granule)
    (fields : List String) (h1 : fields ≠ [])
    (h2 : "_related_urls" ∉ fields) :
    toGeopandas results fields = Except.error "KeyError: _related_urls" := by
  obtain ⟨f, ft, rfl⟩ : ∃ f ft, fields = f :: ft := by
    cases fields with
    | nil => exact absurd rfl h1
    | cons f ft => exact ⟨f, ft, rfl⟩
  have hnot : ∀ cols : List String,
      ¬("_related_urls" ∈ List.filter (fun c => decide (c ∈ f :: ft)) cols) := by
    intro cols hmem
    have h3 := (List.mem_filter.mp hmem).2
    simp at h3
    exact h2 (List.mem_cons.mpr h3)
  simp only [toGeopandas, List.isEmpty_cons, Bool.false_eq_true, if_false]
  rw [if_neg (hnot _)]

/-- Witness for C10 at the concrete fields list `["size"]`. -/
theorem to_geopandas_missing_related_urls_field_raises_witness :
    (["size"] : List String) ≠ [] ∧
    "_related_urls" ∉ (["size"] : List String) ∧
    toGeopandas elevenGranules ["size"] =
      Except.error "KeyError: _related_urls" :=
  ⟨List.cons_ne_nil _ _, by decide,
   to_geopandas_missing_related_urls_field_raises _ _
     (List.cons_ne_nil _ _) (by decide)⟩

/-- C8 counterexample: the flattened name of `umm.RelatedUrls` is
`_related_urls` (leading underscore), while plain snake_case of the last
segment is `related_urls` — the claim's "converted to snake_case" fails at
this concrete column. -/
theorem flatten_column_name_not_plain_snake_counterexample :
    flattentColumnNames ["umm.RelatedUrls"] = ["_related_urls"] ∧
    ["umm.RelatedUrls"].map (fun col => specSnakeCase (lastSeg col)) =
      ["related_urls"] ∧
    flattentColumnNames ["umm.RelatedUrls"] ≠
      ["umm.RelatedUrls"].map (fun col => specSnakeCase (lastSeg col)) :=
  ⟨rfl, rfl, by decide⟩

/-- C8 amended: each column is named by the last segment of its key path
converted to snake_case, except that a segment beginning with an uppercase
letter additionally gains a leading underscore (the regex inserts `_` in
front of every maximal uppercase run, including one at the start). -/
theorem flatten_column_names_underscored_snake (cols : List String) :
    flattentColumnNames cols =
      cols.map (fun col =>
        (if headIsUp (lastSeg col).data then "_" else "") ++
          specSnakeCase (lastSeg col)) := by
  unfold flattentColumnNames
  congr 1
  funext col
  unfold snakeSub specSnakeCase
  rw [subUpperAux_join (lastSeg col).data false]
  cases hh : headIsUp (lastSeg col).data with
  | true =>
    simp only [hh, Bool.not_false, Bool.and_true, if_true]
    rfl
  | false =>
    simp only [hh, Bool.false_and, Bool.false_eq_true, if_false]
    rfl

/-- C2 counterexample: with eleven distinct dataset ids, `explore` builds
only ten layers (Python's `zip` truncates at the ten palette colors; there
is no cycling), so not every distinct dataset id gets a layer. -/
theorem explore_no_palette_cycling_counterexample :
    (uniqueFirstSeen (elevenGranules.map (fun g => g.datasetId))).length = 11 ∧
    Except.map List.length (explore elevenGranules) = Except.ok 10 :=
  ⟨rfl, rfl⟩

/-- C2 amended: `explore` adds one layer per distinct dataset id only for
the first ten distinct ids (the palette size); ids beyond the tenth get no
layer because `zip` truncates instead of cycling.  The layers it does add
carry pairwise-distinct palette colors in palette order. -/
theorem explore_one_layer_per_dataset_id_up_to_palette (results : List Granule)
    (h : results ≠ []) :
    ∃ L, explore results = Except.ok L ∧
      L.length =
        min (uniqueFirstSeen (results.map (fun g => g.datasetId))).length 10 ∧
      L.map (fun l => l.datasetId) =
        (uniqueFirstSeen (results.map (fun g => g.datasetId))).take 10 ∧
      L.map (fun l => l.color) =
        tab10Colors.take
          (uniqueFirstSeen (results.map (fun g => g.datasetId))).length ∧
      (L.map (fun l => l.color)).Pairwise (fun a b => a ≠ b) := by
  obtain ⟨a, t, rfl⟩ : ∃ a t, results = a :: t := by
    cases results with
    | nil => exact absurd rfl h
    | cons a t => exact ⟨a, t, rfl⟩
  refine ⟨_, explore_cons a t, ?_, ?_, ?_, ?_⟩
  · rw [List.length_map, List.length_zip]
    rfl
  · rw [List.map_map]
    exact zip_map_fst _ _
  · rw [List.map_map]
    exact zip_map_snd _ _
  · rw [List.map_map]
    have hp : (((uniqueFirstSeen ((a :: t).map (fun g => g.datasetId))).zip
        tab10Colors).map Prod.snd).Pairwise (fun x y => x ≠ y) := by
      rw [zip_map_snd]
      exact List.Pairwise.sublist (List.take_sublist _ _) tab10_pairwise_ne
    exact hp

/-- Witness for C2's amended claim at the eleven-dataset input. -/
theorem explore_one_layer_per_dataset_id_up_to_palette_witness :
    elevenGranules ≠ [] ∧
    (∃ L, explore elevenGranules = Except.ok L ∧
      L.length =
        min (uniqueFirstSeen
          (elevenGranules.map (fun g => g.datasetId))).length 10 ∧
      L.map (fun l => l.datasetId) =
        (uniqueFirstSeen (elevenGranules.map (fun g => g.datasetId))).take 10 ∧
      L.map (fun l => l.color) =
        tab10Colors.take
          (uniqueFirstSeen (elevenGranules.map (fun g => g.datasetId))).length ∧
      (L.map (fun l => l.color)).Pairwise (fun a b => a ≠ b)) :=
  ⟨by simp [elevenGranules],
   explore_one_layer_per_dataset_id_up_to_palette _ (by simp [elevenGranules])⟩

/-- C7: with exactly two distinct dataset ids, `explore` builds exactly two
layers with distinct colors, and each layer's label stats are its group's
row count and `round(sum(size)/1024, 2)` total size. -/
theorem explore_two_groups_layer_stats (results : List Granule)
    (h2 : (uniqueFirstSeen (results.map (fun g => g.datasetId))).length = 2)
    (h0 : results ≠ []) :
    ∃ L, explore results = Except.ok L ∧ L.length = 2 ∧
      (L.map (fun l => l.color)).Pairwise (fun a b => a ≠ b) ∧
      ∀ l ∈ L,
        l.count = (results.filter (fun g => g.datasetId == l.datasetId)).length ∧
        l.totalSize = pyRound2
          (((results.filter (fun g => g.datasetId == l.datasetId)).map
              (fun g => g.size)).sum / 1024) := by
  obtain ⟨a, t, rfl⟩ : ∃ a t, results = a :: t := by
    cases results with
    | nil => exact absurd rfl h0
    | cons a t => exact ⟨a, t, rfl⟩
  obtain ⟨x, y, hxy⟩ := List.length_eq_two.mp h2
  refine ⟨_, explore_cons a t, ?_, ?_, ?_⟩
  · rw [hxy]
    rfl
  · rw [hxy]
    have hpair : (["#1f77b4", "#ff7f0e"] : List String).Pairwise
        (fun p q => p ≠ q) := by decide
    exact hpair
  · rw [hxy]
    intro l hl
    simp only [tab10Colors, List.zip_cons_cons, List.zip_nil_left,
      List.map_cons, List.map_nil, List.mem_cons, List.not_mem_nil,
      or_false] at hl
    rcases hl with rfl | rfl
    · exact ⟨rfl, rfl⟩
    · exact ⟨rfl, rfl⟩

/-- Witness for C7 at three 10 MB granules in dataset `"A"` and two 5 MB
granules in dataset `"B"`: the two layers report 0.03 GB and 0.01 GB. -/
theorem explore_two_groups_layer_stats_witness :
    (uniqueFirstSeen (fiveGranules.map (fun g => g.datasetId))).length = 2 ∧
    fiveGranules ≠ [] ∧
    (∃ L, explore fiveGranules = Except.ok L ∧ L.length = 2 ∧
      (L.map (fun l => l.color)).Pairwise (fun a b => a ≠ b) ∧
      ∀ l ∈ L,
        l.count =
          (fiveGranules.filter (fun g => g.datasetId == l.datasetId)).length ∧
        l.totalSize = pyRound2
          (((fiveGranules.filter (fun g => g.datasetId == l.datasetId)).map
              (fun g => g.size)).sum / 1024)) ∧
    Option.map (fun L => L.map (fun l => l.totalSize))
        (okOf (explore fiveGranules)) = some [3 / 100, 1 / 100] :=
  ⟨rfl, by simp [fiveGranules],
   explore_two_groups_layer_stats _ rfl (by simp [fiveGranules]),
   by with_unfolding_all decide⟩
